import Mathlib

/-!
Shallow embedding of the go-llmbridge OpenAI adapter (package `openai`).

Go source files embedded here (the unnamed files are referred to by their
position in the source tree):
  * `src/unnamed/part_000` — `OACreateResponseFormat`, `OpenAISendMessage`,
                             `OpenAIGetFirstContentDataResp`
  * `src/unnamed/part_001` — `OpenAITextToSpeech`
  * `src/unnamed/part_002` — `OpenAICreateImageDallE`
  * `src/pkg/openai/openai.stt.go` — `sttBaseReq` and the four
                             speech-to-text wrappers
  * `src/pkg/openai/openai.interfaces.go`, `src/pkg/openai/openai.dto.go`
                           — configuration, constants and DTO types

Modelling conventions:
  * Go `float64` fields are modelled as `ℚ`; all numeric literals compared
    against them (0.25, 4.0, 0, 1) are exactly representable, so the
    comparison semantics coincide with the Go code.
  * Go pointers that the code may receive as `nil` are `Option`; a Go nil
    interface value is also `none`.  Mutation through a pointer is modelled
    by returning the final value of the pointee.
  * JSON values are the inductive `Json`; `map[string]interface{}` is an
    association list `List (String × Json)`.  `encoding/json` serialization
    of the DTO structs is modelled structurally (struct → `Json`), honouring
    the `omitempty` tags of the source.
  * The HTTP world is a function parameter `world : HttpClient →
    HttpRequest → TransportResult β`; every embedded operation additionally
    returns the trace of `client.Do` invocations, so "no network call is
    attempted" is `trace = []`.  `β` is the operation's view of the response
    bytes (for JSON endpoints, the result of decoding them; decode failure
    is `Except.error`).
  * A Go runtime panic (nil-pointer dereference, index out of range) is the
    explicit outcome `GoOutcome.panic`.
-/

/-- JSON value tree, the image of Go's `interface{}` used for JSON data. -/
inductive Json where
  | null : Json
  | bool (b : Bool) : Json
  | num (q : ℚ) : Json
  | str (s : String) : Json
  | arr (xs : List Json) : Json
  | obj (fields : List (String × Json)) : Json
deriving Repr

/-- Field lookup in a JSON object (`none` on non-objects or missing keys). -/
def Json.field : Json → String → Option Json
  | .obj fs, k => fs.lookup k
  | _, _ => none

/-- Outcome of a Go function returning `(T, error)`: a value, an error, or a
runtime panic. -/
inductive GoOutcome (α : Type) where
  | ok (a : α) : GoOutcome α
  | err (msg : String) : GoOutcome α
  | panic (msg : String) : GoOutcome α
deriving Repr

/-- A raw byte sequence (`[]byte`). -/
def Bytes := List Nat
deriving instance Repr, DecidableEq for Bytes

/-- Go `http.Client`: only its configured timeout distinguishes clients in
this model.  `&http.Client{}` has the zero value `timeoutSeconds = 0`. -/
structure HttpClient where
  timeoutSeconds : Nat
deriving Repr, DecidableEq

/-- The fresh zero-value client `&http.Client{}` built inside `sttBaseReq`. -/
def freshHttpClient : HttpClient := ⟨0⟩

-- Constants from `openai.interfaces.go` (src/pkg/openai).

def OAUrlBase : String := "https://api.openai.com/v1"

def OAUrlTextCompletions : String := OAUrlBase ++ "/chat/completions"

def OAUrlImageGenerationsDallE : String := OAUrlBase ++ "/images/generations"

def OAUrlTextToSpeech : String := OAUrlBase ++ "/audio/speech"

def OAUrlSTTTranscription : String := OAUrlBase ++ "/audio/transcriptions"

def OAUrlSTTTranslation : String := OAUrlBase ++ "/audio/translations"

def OABaseModel : String := "gpt-4o-mini"

/-- `Config` from `openai.interfaces.go` (src/pkg/openai). -/
structure Config where
  httpClient : HttpClient
  openAIBaseUrl : String
  openAIModel : String
deriving Repr

/-- `DefaultConfig()` from `openai.interfaces.go`: 60-second timeout, chat
completions endpoint, `gpt-4o-mini`. -/
def DefaultConfig : Config :=
  { httpClient := ⟨60⟩, openAIBaseUrl := OAUrlTextCompletions, openAIModel := OABaseModel }

/-- The private client struct `openaiAPI`. -/
structure OpenaiAPI where
  apiKey : String
  openaiOrganization : String
  openaiProject : String
  config : Config
deriving Repr

/-- A multipart form-data field value.  The source writes each field as a
byte string; the temperature field is written through
`strconv.FormatFloat(t, 'f', 6, 64)`, recorded here as the numeric value. -/
inductive FieldVal where
  | str (s : String) : FieldVal
  | num (q : ℚ) : FieldVal
deriving Repr, DecidableEq

/-- A multipart/form-data body: the file part (written first) plus the
scalar fields in the order they are written. -/
structure MultipartBody where
  fileName : String
  fileContent : Bytes
  fields : List (String × FieldVal)
deriving Repr, DecidableEq

/-- Request body put on the wire: JSON or multipart form-data. -/
inductive ReqBody where
  | json (j : Json) : ReqBody
  | multipart (m : MultipartBody) : ReqBody
deriving Repr

/-- An outgoing HTTP request as the adapter builds it. -/
structure HttpRequest where
  method : String
  url : String
  headers : List (String × String)
  body : ReqBody
deriving Repr

/-- What `client.Do` plus body reading/decoding yields in the environment:
a network error, or a response with status code, status line and the
operation's view `β` of the body. -/
inductive TransportResult (β : Type) where
  | netErr (msg : String) : TransportResult β
  | resp (statusCode : Nat) (status : String) (body : β) : TransportResult β

/-- The HTTP environment: which client performs which request, and what
comes back. -/
def World (β : Type) := HttpClient → HttpRequest → TransportResult β

-- ---------------------------------------------------------------------
-- DTO types (`openai.dto.go` (src/pkg/openai))
-- ---------------------------------------------------------------------

/-- `OAMessageReq`: one chat message; `Content` is `interface{}`. -/
structure OAMessageReq where
  role : String
  content : Json
deriving Repr

/-- `OAReqBodyMessageCompletion` from `openai.dto.go` (src/pkg/openai).  `Messages` is
`interface{}` in Go; the adapter only ever stores a `*[]OAMessageReq` (or
leaves it nil), so it is modelled as `Option (List OAMessageReq)`.
`ResponseFormat` is a `map[string]interface{}` (nil map ≍ `none`). -/
structure OAReqBodyMessageCompletion where
  messages : Option (List OAMessageReq) := none
  model : String := ""
  store : Bool := false
  metadata : Json := .null
  frequencyPenalty : ℚ := 0
  logitBias : Option (List (String × Json)) := none
  logprobe : Bool := false
  modalities : List String := []
  responseFormat : Option (List (String × Json)) := none
deriving Repr

/-- `OAAudioDataResponse`. -/
structure OAAudioDataResponse where
  id : String := ""
  expiresAt : Int := 0
  data : String := ""
  transcript : String := ""
deriving Repr

/-- `OAMessage` (response message). -/
structure OAMessage where
  role : String := ""
  content : String := ""
  refusal : String := ""
  audioData : OAAudioDataResponse := {}
deriving Repr

/-- `OAChoice`. -/
structure OAChoice where
  index : Int := 0
  message : OAMessage := {}
  logprobs : Option String := none
  finishReason : String := ""
deriving Repr

/-- `TokensDetail`. -/
structure TokensDetail where
  reasoningTokens : Int := 0
deriving Repr

/-- `OAUsage`. -/
structure OAUsage where
  promptTokens : Int := 0
  completionTokens : Int := 0
  totalTokens : Int := 0
  completionTokensDetail : TokensDetail := {}
deriving Repr

/-- `OAChatCompletionResp`. -/
structure OAChatCompletionResp where
  id : String := ""
  object : String := ""
  created : Int := 0
  model : String := ""
  systemFingerprint : String := ""
  choices : List OAChoice := []
  usage : OAUsage := {}
deriving Repr

-- ---------------------------------------------------------------------
-- JSON marshalling of the chat-completion request struct
-- ---------------------------------------------------------------------

/-- Marshal one `OAMessageReq` (tags `role`, `content`, both required). -/
def OAMessageReq.marshal (m : OAMessageReq) : Json :=
  .obj [("role", .str m.role), ("content", m.content)]

/-- Marshal the `Messages interface{}` field: a nil interface marshals to
JSON `null`, a `*[]OAMessageReq` to the array of marshalled messages. -/
def marshalMessages : Option (List OAMessageReq) → Json
  | none => .null
  | some l => .arr (l.map OAMessageReq.marshal)

/-- `encoding/json` marshalling of `OAReqBodyMessageCompletion`, honouring
the `omitempty` tags of `openai.dto.go` (src/pkg/openai) (`messages` and `model` are always
emitted; every other field is omitted at its zero value; a `nil` or empty
map is omitted). -/
def OAReqBodyMessageCompletion.marshal (r : OAReqBodyMessageCompletion) : Json :=
  .obj ([("messages", marshalMessages r.messages), ("model", .str r.model)]
    ++ (if r.store then [("store", .bool true)] else [])
    ++ (match r.metadata with | .null => [] | j => [("metadata", j)])
    ++ (if r.frequencyPenalty = 0 then [] else [("frequency_penalty", .num r.frequencyPenalty)])
    ++ (match r.logitBias with
        | none => [] | some [] => [] | some fs => [("logit_bias", .obj fs)])
    ++ (if r.logprobe then [("logprobe", .bool true)] else [])
    ++ (match r.modalities with
        | [] => [] | ms => [("modalities", .arr (ms.map .str))])
    ++ (match r.responseFormat with
        | none => [] | some [] => [] | some fs => [("response_format", .obj fs)]))

-- ---------------------------------------------------------------------
-- `OACreateResponseFormat` (openai.go)
-- ---------------------------------------------------------------------

/-- `OACreateResponseFormat(jsonName, jsonSchema)`: wraps a schema into the
structured-output envelope
`{type: "json_schema", json_schema: {name, schema}}`. -/
def OACreateResponseFormat (jsonName : String) (jsonSchema : List (String × Json)) :
    List (String × Json) :=
  [("type", .str "json_schema"),
   ("json_schema", .obj [("name", .str jsonName), ("schema", .obj jsonSchema)])]

-- ---------------------------------------------------------------------
-- `OpenAISendMessage` / `OpenAIGetFirstContentDataResp` (openai.go)
-- ---------------------------------------------------------------------

/-- The chat-completion HTTP request (src/unnamed/part_000 lines 245-252): POST to
`c.config.openAIBaseUrl` with JSON content type and bearer header. -/
def chatHttpRequest (c : OpenaiAPI) (bodyJson : Json) : HttpRequest :=
  { method := "POST", url := c.config.openAIBaseUrl,
    headers := [("Content-Type", "application/json"),
                ("Authorization", "Bearer " ++ c.apiKey)],
    body := .json bodyJson }

/-- The network phase of `OpenAISendMessage` (src/unnamed/part_000 lines 239-277):
marshal the body, POST it to `c.config.openAIBaseUrl` with JSON/bearer
headers through `c.config.httpClient`, check the status, decode.
`json.Marshal` of these types and `http.NewRequest` with method POST cannot
fail and are modelled as total. -/
def chatNetworkPhase (c : OpenaiAPI) (world : World (Except String OAChatCompletionResp))
    (bodyJson : Json) : GoOutcome OAChatCompletionResp × List (HttpClient × HttpRequest) :=
  let req : HttpRequest := chatHttpRequest c bodyJson
  let client := c.config.httpClient
  match world client req with
  | .netErr m => (.err ("Failed to send request: " ++ m), [(client, req)])
  | .resp statusCode status decoded =>
    if statusCode ≠ 200 then
      (.err ("Failed to send request: " ++ status), [(client, req)])
    else
      match decoded with
      | .error m => (.err ("Failed to decode response: " ++ m), [(client, req)])
      | .ok result => (.ok result, [(client, req)])

/-- `OpenAISendMessage` (src/unnamed/part_000 lines 192-278).  Returns the outcome, the
final value of the pointee `*req_body_custom` (the caller's struct, which
line 220 may mutate), and the trace of `client.Do` calls.  Go evaluates
`with_custom_reqbody && req_body_custom.Messages == nil` left to right, so a
nil `req_body_custom` with the flag set is a nil-pointer-dereference panic. -/
def OpenAISendMessage (c : OpenaiAPI) (world : World (Except String OAChatCompletionResp))
    (content : Option (List OAMessageReq)) (with_format_response : Bool)
    (format_response : Option (List (String × Json))) (with_custom_reqbody : Bool)
    (req_body_custom : Option OAReqBodyMessageCompletion) :
    GoOutcome OAChatCompletionResp × Option OAReqBodyMessageCompletion ×
      List (HttpClient × HttpRequest) :=
  if c.apiKey = "" then
    (.err "API Key is empty", req_body_custom, [])
  else if with_format_response ∧ format_response.isNone then
    (.err "format_response must be provided when with_format_response is true",
      req_body_custom, [])
  else
    match with_custom_reqbody, req_body_custom with
    | true, none =>
      (.panic "runtime error: invalid memory address or nil pointer dereference",
        none, [])
    | true, some rb =>
      if rb.messages.isNone then
        (.err "req_body_custom must be provided when with_custom_reqbody is true",
          some rb, [])
      else
        let rb' := if with_format_response then
            { rb with responseFormat := format_response } else rb
        let p := chatNetworkPhase c world rb'.marshal
        (p.1, some rb', p.2)
    | false, _ =>
      if content.isNone then
        (.err "content must be provided", req_body_custom, [])
      else
        let reqData : OAReqBodyMessageCompletion :=
          { messages := content, model := c.config.openAIModel,
            responseFormat := if with_format_response then format_response else none }
        let p := chatNetworkPhase c world reqData.marshal
        (p.1, req_body_custom, p.2)

/-- `OpenAIGetFirstContentDataResp` (src/unnamed/part_000 lines 280-291): delegate to
`OpenAISendMessage`, then take `resp.Choices[0].Message` — an
index-out-of-range panic when the decoded choices slice is empty. -/
def OpenAIGetFirstContentDataResp (c : OpenaiAPI)
    (world : World (Except String OAChatCompletionResp))
    (content : Option (List OAMessageReq)) (with_format_response : Bool)
    (format_response : Option (List (String × Json))) (with_custom_reqbody : Bool)
    (req_body_custom : Option OAReqBodyMessageCompletion) :
    GoOutcome OAMessage × Option OAReqBodyMessageCompletion ×
      List (HttpClient × HttpRequest) :=
  match OpenAISendMessage c world content with_format_response format_response
      with_custom_reqbody req_body_custom with
  | (.ok resp, rb, tr) =>
    match resp.choices with
    | [] => (.panic "runtime error: index out of range [0] with length 0", rb, tr)
    | ch :: _ => (.ok ch.message, rb, tr)
  | (.err m, rb, tr) => (.err m, rb, tr)
  | (.panic m, rb, tr) => (.panic m, rb, tr)

-- ---------------------------------------------------------------------
-- `OpenAITextToSpeech` (openai.tts.go)
-- ---------------------------------------------------------------------

/-- `OAReqTextToSpeech` from `openai.dto.go` (src/pkg/openai) (`Speed` is a `*float64`). -/
structure OAReqTextToSpeech where
  model : String := ""
  input : String := ""
  voice : String := ""
  responseFormat : String := ""
  speed : Option ℚ := none
deriving Repr

/-- `OATextToSpeechResp`. -/
structure OATextToSpeechResp where
  formatAudio : String := ""
  b64JSON : String := ""
deriving Repr, DecidableEq

/-- Marshal `OAReqTextToSpeech`: `model`, `input`, `voice`,
`response_format` carry no `omitempty`; `speed` is omitted when nil. -/
def OAReqTextToSpeech.marshal (r : OAReqTextToSpeech) : Json :=
  .obj ([("model", .str r.model), ("input", .str r.input), ("voice", .str r.voice),
         ("response_format", .str r.responseFormat)]
    ++ (match r.speed with | none => [] | some s => [("speed", .num s)]))

/-- The standard base64 alphabet. -/
def base64Alphabet : List Char :=
  "ABCDEFGHIJKLMNOPQRSTUVWXYZabcdefghijklmnopqrstuvwxyz0123456789+/".toList

/-- One base64 digit. -/
def b64digit (n : Nat) : Char := base64Alphabet.getD n 'A'

/-- `base64.StdEncoding.EncodeToString`. -/
def base64StdEncode : List Nat → String
  | [] => ""
  | [a] =>
    String.mk [b64digit (a / 4), b64digit (a % 4 * 16), '=', '=']
  | [a, b] =>
    String.mk [b64digit (a / 4), b64digit (a % 4 * 16 + b / 16), b64digit (b % 16 * 4), '=']
  | a :: b :: c :: rest =>
    String.mk [b64digit (a / 4), b64digit (a % 4 * 16 + b / 16),
               b64digit (b % 16 * 4 + c / 64), b64digit (c % 64)]
      ++ base64StdEncode rest

/-- The input-checker prefix of `OpenAITextToSpeech` (src/unnamed/part_001 lines
15-33), translated check for check; `some msg` is the first validation error.
Note two faithfully reproduced quirks of the source: the voice whitelist
compares against the literal `"shimer"`, and the response-format check is a
conjunction of equalities (which can never all hold), not a conjunction of
inequalities. -/
def ttsValidationError (r : OAReqTextToSpeech) : Option String :=
  if r.model = "" ∨ (r.model ≠ "tts-1" ∧ r.model ≠ "tts-1-hd") then
    some "Model must be gpt-3 or davinci"
  else if r.input = "" then
    some "Input text must be provided"
  else if r.voice ≠ "" ∧ (r.voice ≠ "alloy" ∧ r.voice ≠ "echo" ∧ r.voice ≠ "fable" ∧
      r.voice ≠ "onyx" ∧ r.voice ≠ "nova" ∧ r.voice ≠ "shimer") then
    some "Voice must be alloy, echo, fable, onyx, nova, or shimmer"
  else if r.responseFormat ≠ "" ∧ (r.responseFormat = "mp3" ∧ r.responseFormat = "opus" ∧
      r.responseFormat = "aac" ∧ r.responseFormat = "flac" ∧ r.responseFormat = "wav" ∧
      r.responseFormat = "pcm") then
    some "ResponseFormat must be mp3, opus, aac, flac, wav, or pcm"
  else
    match r.speed with
    | some s => if s < 0.25 ∨ s > 4.0 then some "Speed must be between 0.25 and 4.0" else none
    | none => none

/-- `OpenAITextToSpeech` (src/unnamed/part_001 lines 12-94).  The environment's `β`
is the result of `io.ReadAll(resp.Body)` (failure = `Except.error`). -/
def OpenAITextToSpeech (c : OpenaiAPI) (world : World (Except String Bytes))
    (req_body : OAReqTextToSpeech) :
    GoOutcome OATextToSpeechResp × List (HttpClient × HttpRequest) :=
  match ttsValidationError req_body with
  | some m => (.err m, [])
  | none =>
    if c.apiKey = "" then (.err "API Key is empty", [])
    else
      let req : HttpRequest :=
        { method := "POST", url := OAUrlTextToSpeech,
          headers := [("Content-Type", "application/json"),
                      ("Authorization", "Bearer " ++ c.apiKey)],
          body := .json req_body.marshal }
      let client := c.config.httpClient
      match world client req with
      | .netErr m => (.err ("Failed to send request: " ++ m), [(client, req)])
      | .resp statusCode status fileRead =>
        if statusCode ≠ 200 then
          (.err ("Failed to send request: " ++ status), [(client, req)])
        else
          match fileRead with
          | .error m => (.err ("Failed to read response body3: " ++ m), [(client, req)])
          | .ok fileBytes =>
            let fileExt := if req_body.responseFormat = "" then ".mp3"
              else "." ++ req_body.responseFormat
            (.ok { b64JSON := base64StdEncode fileBytes, formatAudio := fileExt },
              [(client, req)])

-- ---------------------------------------------------------------------
-- `OpenAICreateImageDallE` (openai.image.go)
-- ---------------------------------------------------------------------

/-- `OAReqImageGeneratorDallE` from `openai.dto.go` (src/pkg/openai) (optional fields are
pointers). -/
structure OAReqImageGeneratorDallE where
  prompt : String := ""
  model : String := ""
  n : Option Int := none
  quality : Option String := none
  responseFormat : Option String := none
  size : Option String := none
  style : Option String := none
  user : Option String := none
deriving Repr

/-- `OAImageGeneratorDallEData`. -/
structure OAImageGeneratorDallEData where
  url : String := ""
  b64JSON : String := ""
deriving Repr

/-- `OAImageGeneratorDallEResp`. -/
structure OAImageGeneratorDallEResp where
  created : Int := 0
  data : List OAImageGeneratorDallEData := []
deriving Repr

/-- Marshal an optional pointer field with `omitempty` (omitted when nil). -/
def omitemptyStr (name : String) : Option String → List (String × Json)
  | none => []
  | some s => [(name, .str s)]

/-- Marshal `OAReqImageGeneratorDallE`. -/
def OAReqImageGeneratorDallE.marshal (r : OAReqImageGeneratorDallE) : Json :=
  .obj ([("prompt", .str r.prompt), ("model", .str r.model)]
    ++ (match r.n with | none => [] | some v => [("n", .num (v : ℚ))])
    ++ omitemptyStr "quality" r.quality
    ++ omitemptyStr "response_format" r.responseFormat
    ++ omitemptyStr "size" r.size
    ++ omitemptyStr "style" r.style
    ++ omitemptyStr "user" r.user)

/-- The input-checker prefix of `OpenAICreateImageDallE` (openai.image.go
lines 14-40), translated check for check; `some msg` is the first
validation error. -/
def dalleValidationError (r : OAReqImageGeneratorDallE) : Option String :=
  if r.model = "" ∨ (r.model ≠ "dall-e-2" ∧ r.model ≠ "dall-e-3") then
    some "Model must be dall-e-2 or dall-e-3"
  else if r.n.any (fun v => decide (v < 1) || decide (v > 10)) then
    some "N must be between 1 and 10"
  else if r.model ≠ "dall-e-3" ∧ r.quality.isSome then
    some "Quality is only supported for dall-e-3 model"
  else if r.quality.any (fun q => q != "standard" && q != "hd") then
    some "Quality must be standard or hd"
  else if r.model ≠ "dall-e-3" ∧ r.style.isSome then
    some "Style is only supported for dall-e-3 model"
  else if r.style.any (fun s => s != "vivid" && s != "natural") then
    some "Style must be vivid or natural"
  else if r.responseFormat.any (fun f => f != "url" && f != "b64_json") then
    some "ResponseFormat must be url or b64_json"
  else none

/-- `OpenAICreateImageDallE` (src/unnamed/part_002 lines 11-84). -/
def OpenAICreateImageDallE (c : OpenaiAPI)
    (world : World (Except String OAImageGeneratorDallEResp))
    (req_body : OAReqImageGeneratorDallE) :
    GoOutcome OAImageGeneratorDallEResp × List (HttpClient × HttpRequest) :=
  match dalleValidationError req_body with
  | some m => (.err m, [])
  | none =>
    if c.apiKey = "" then (.err "API Key is empty", [])
    else
      let req : HttpRequest :=
        { method := "POST", url := OAUrlImageGenerationsDallE,
          headers := [("Content-Type", "application/json"),
                      ("Authorization", "Bearer " ++ c.apiKey)],
          body := .json req_body.marshal }
      let client := c.config.httpClient
      match world client req with
      | .netErr m => (.err ("Failed to send request: " ++ m), [(client, req)])
      | .resp statusCode status decoded =>
        if statusCode ≠ 200 then
          (.err ("Failed to send request: " ++ status), [(client, req)])
        else
          match decoded with
          | .error m => (.err ("Failed to decode response: " ++ m), [(client, req)])
          | .ok result => (.ok result, [(client, req)])

-- ---------------------------------------------------------------------
-- Speech-to-text (`openai.stt.go`)
-- ---------------------------------------------------------------------

/-- Go `path/filepath.Ext` (unix separator): the suffix beginning at the
final dot in the final slash-separated element; empty if there is no dot. -/
def filepathExtAux : List Char → Option (List Char) → String
  | [], acc =>
    match acc with
    | none => ""
    | some cs => String.mk ('.' :: cs.reverse)
  | c :: rest, acc =>
    if c = '/' then filepathExtAux rest none
    else if c = '.' then filepathExtAux rest (some [])
    else filepathExtAux rest (acc.map (c :: ·))

/-- Go `path/filepath.Ext`. -/
def filepathExt (p : String) : String := filepathExtAux p.data none

/-- Go `path/filepath.Base` (unix separator): last element of the path
after stripping trailing slashes; `"."` for the empty path, `"/"` for a
path consisting only of slashes. -/
def filepathBase (p : String) : String :=
  if p = "" then "."
  else
    let rev := p.data.reverse.dropWhile (· = '/')
    if rev = [] then "/"
    else String.mk ((rev.takeWhile (· ≠ '/')).reverse)

/-- The `File interface{}` input of a transcription request: the three
supported dynamic types plus anything else (`unsupported`).  Whether the
byte source can be opened and read is carried on the value, standing for
the state of the surrounding filesystem/stream:
  * `fileHeader` — a `*multipart.FileHeader` (`openErr` = error of `.Open()`,
    `content` = result of reading the stream);
  * `path` — a filesystem path string (`openErr` = error of `os.Open`);
  * `reader` — an `io.Reader` (`content` = result of reading it);
  * `unsupported` — any other dynamic type. -/
inductive GoFile where
  | fileHeader (filename : String) (openErr : Option String) (content : Except String Bytes)
  | path (p : String) (openErr : Option String) (content : Except String Bytes)
  | reader (content : Except String Bytes)
  | unsupported
deriving Repr

/-- `OATranscriptionDefaultReq` from `openai.dto.go` (src/pkg/openai) (`File` is a possibly
nil `interface{}`). -/
structure OATranscriptionDefaultReq where
  file : Option GoFile := none
  filename : String := ""
  prompt : String := ""
  language : String := ""
  temperature : ℚ := 0
deriving Repr

/-- `OATranslationDefaultReq` from `openai.dto.go` (src/pkg/openai) (no `Language` field). -/
structure OATranslationDefaultReq where
  file : Option GoFile := none
  filename : String := ""
  prompt : String := ""
  temperature : ℚ := 0
deriving Repr

/-- `OATranscriptionReq`, the internal request struct populated by
`sttBaseReq`. -/
structure OATranscriptionReq where
  model : String := ""
  language : String := ""
  prompt : String := ""
  responseFormat : String := ""
  temperature : ℚ := 0
  timestampGranularities : List String := []
deriving Repr

/-- `OASTTError`, the in-band error sub-object of every STT response. -/
structure OASTTError where
  message : String := ""
  type : String := ""
  param : String := ""
  code : Int := 0
deriving Repr, DecidableEq

/-- `OATranscriptionDefaultResp`. -/
structure OATranscriptionDefaultResp where
  text : String := ""
  error : OASTTError := {}
deriving Repr, DecidableEq

/-- `wordTimestampResp`. -/
structure WordTimestampResp where
  word : String := ""
  start : ℚ := 0
  «end» : ℚ := 0
deriving Repr, DecidableEq

/-- `OATranscriptionWordTimestampResp`. -/
structure OATranscriptionWordTimestampResp where
  task : String := ""
  language : String := ""
  duration : ℚ := 0
  text : String := ""
  words : List WordTimestampResp := []
  error : OASTTError := {}
deriving Repr, DecidableEq

/-- `segmentResp`. -/
structure SegmentResp where
  id : Int := 0
  seek : Int := 0
  start : ℚ := 0
  «end» : ℚ := 0
  text : String := ""
  tokens : List Int := []
  temperature : ℚ := 0
  avgLogprob : ℚ := 0
  compressionRat : ℚ := 0
  noSpeechProb : ℚ := 0
deriving Repr, DecidableEq

/-- `OATranscriptionSegmentResp`. -/
structure OATranscriptionSegmentResp where
  task : String := ""
  language : String := ""
  duration : ℚ := 0
  text : String := ""
  segments : List SegmentResp := []
  error : OASTTError := {}
deriving Repr, DecidableEq

/-- The accepted audio extensions (openai.stt.go line 66). -/
def validExts : List String :=
  [".mp3", ".mp4", ".mpeg", ".mpga", ".m4a", ".webm", ".wav", ".flac", ".ogg"]

/-- The `switch v := req_body.File.(type)` block of `sttBaseReq`
(openai.stt.go lines 37-63): resolve the file input to a `(filename, byte
source)` pair (for the `io.Reader` case the request-level `Filename` is
required). -/
def sttResolveFile (f : GoFile) (reqFilename : String) :
    Except String (String × Except String Bytes) :=
  match f with
  | .fileHeader fn openErr content =>
    match openErr with
    | some e => .error ("failed to access file content: " ++ e)
    | none => .ok (fn, content)
  | .path p openErr content =>
    match openErr with
    | some e => .error ("failed to open file: " ++ e)
    | none => .ok (filepathBase p, content)
  | .reader content =>
    if reqFilename = "" then
      .error "filename must be provided if file is io.Reader"
    else .ok (reqFilename, content)
  | .unsupported =>
    .error "file type not supported, supported type is *multipart.FileHeader, string, or io.Reader"

/-- The validation and multipart-encoding prefix of `sttBaseReq`
(openai.stt.go lines 24-186), everything before the HTTP request: nil-file
and temperature checks, resolution of the three file-input kinds to a
`(filename, byte source)` pair, extension whitelist, population of the
internal `OATranscriptionReq` (model hard-coded to `whisper-1`), the
mutual-exclusion check on the timestamp flags, and the multipart body with
its fields in source order (file, model, temperature?, prompt?, language?,
then `response_format`/`timestamp_granularities[]` only in a timestamp
mode). -/
def sttBuildBody (isWordStampReq isSegmentStampReq : Bool)
    (req_body : OATranscriptionDefaultReq) : Except String MultipartBody :=
  match req_body.file with
  | none => .error "file must be provided"
  | some f =>
    if req_body.temperature ≠ 0 ∧ (req_body.temperature < 0 ∨ req_body.temperature > 1) then
      .error "temperature must be between 0 and 1"
    else
      match sttResolveFile f req_body.filename with
      | .error e => .error e
      | .ok (fileName, fileContent) =>
        let fileExt := filepathExt fileName
        if ¬ validExts.contains fileExt then
          .error ("your file extension is " ++ fileExt ++
            ", but it must be mp3, mp4, mpeg, mpga, m4a, webm, wav, flac, or ogg")
        else
          let stt_req : OATranscriptionReq := { model := "whisper-1" }
          let stt_req := if req_body.temperature ≠ 0 then
              { stt_req with temperature := req_body.temperature } else stt_req
          let stt_req := if req_body.prompt ≠ "" then
              { stt_req with prompt := req_body.prompt } else stt_req
          let stt_req := if req_body.language ≠ "" then
              { stt_req with language := req_body.language } else stt_req
          if isWordStampReq ∧ isSegmentStampReq then
            .error "cannot use both word timestamps and segment timestamps"
          else
            let stt_req := if isWordStampReq then
                { stt_req with responseFormat := "verbose_json",
                               timestampGranularities := ["word"] } else stt_req
            let stt_req := if isSegmentStampReq then
                { stt_req with responseFormat := "verbose_json",
                               timestampGranularities := ["segment"] } else stt_req
            -- multipart form: `io.Copy(fw, fileContent)` is the read step
            match fileContent with
            | .error _ => .error "failed to copy file content"
            | .ok bs =>
              let fields := [("model", FieldVal.str stt_req.model)]
                ++ (if stt_req.temperature ≠ 0 then
                      [("temperature", FieldVal.num stt_req.temperature)] else [])
                ++ (if stt_req.prompt ≠ "" then
                      [("prompt", FieldVal.str stt_req.prompt)] else [])
                ++ (if stt_req.language ≠ "" then
                      [("language", FieldVal.str stt_req.language)] else [])
                ++ (if isWordStampReq ∨ isSegmentStampReq then
                      [("response_format", FieldVal.str stt_req.responseFormat),
                       ("timestamp_granularities[]",
                        FieldVal.str (stt_req.timestampGranularities.headD ""))] else [])
              .ok { fileName := fileName, fileContent := bs, fields := fields }

/-- The multipart content type written by `w.FormDataContentType()` (the
random boundary parameter is elided). -/
def multipartContentType : String := "multipart/form-data"

/-- The HTTP request `sttBaseReq` builds (openai.stt.go lines 189-194):
POST to the transcription or translation endpoint, multipart content type,
bearer header from the given key. -/
def sttHttpRequest (isTranscription : Bool) (APIKey : String)
    (body : MultipartBody) : HttpRequest :=
  { method := "POST",
    url := if isTranscription then OAUrlSTTTranscription else OAUrlSTTTranslation,
    headers := [("Content-Type", multipartContentType),
                ("Authorization", "Bearer " ++ APIKey)],
    body := .multipart body }

/-- `sttBaseReq` (openai.stt.go lines 15-211): build the multipart body,
then POST it to the transcription or translation endpoint.  Two deliberate
features of the source are preserved: the exchange runs on a freshly
constructed zero-value `&http.Client{}` (line 197), not the configured
client, and no API-key or status-code check is performed — the raw response
bytes are returned for any status. -/
def sttBaseReq (isTranscription isWordStampReq isSegmentStampReq : Bool)
    (req_body : OATranscriptionDefaultReq) (APIKey : String)
    (world : World (Except String Bytes)) :
    Except String Bytes × List (HttpClient × HttpRequest) :=
  match sttBuildBody isWordStampReq isSegmentStampReq req_body with
  | .error m => (.error m, [])
  | .ok body =>
    let httpReq : HttpRequest := sttHttpRequest isTranscription APIKey body
    let client := freshHttpClient
    match world client httpReq with
    | .netErr _ => (.error "failed to send request", [(client, httpReq)])
    | .resp _ _ bodyRead =>
      match bodyRead with
      | .error _ => (.error "failed to read response body", [(client, httpReq)])
      | .ok bs => (.ok bs, [(client, httpReq)])

/-- `OpenAISpeechToTextDefault` (openai.stt.go lines 259-279).
`unmarshal` is the environment's `json.Unmarshal` at the result type
(`none` = malformed body). -/
def OpenAISpeechToTextDefault (c : OpenaiAPI) (world : World (Except String Bytes))
    (unmarshal : Bytes → Option OATranscriptionDefaultResp)
    (req_body : OATranscriptionDefaultReq) :
    GoOutcome OATranscriptionDefaultResp × List (HttpClient × HttpRequest) :=
  match sttBaseReq true false false req_body c.apiKey world with
  | (.error m, tr) => (.err m, tr)
  | (.ok bs, tr) =>
    match unmarshal bs with
    | none => (.err "failed to unmarshal response", tr)
    | some result =>
      if result.error.message ≠ "" then (.err result.error.message, tr)
      else (.ok result, tr)

/-- `OpenAISpeechToTextWordTimestamps` (openai.stt.go lines 213-234). -/
def OpenAISpeechToTextWordTimestamps (c : OpenaiAPI) (world : World (Except String Bytes))
    (unmarshal : Bytes → Option OATranscriptionWordTimestampResp)
    (req_body : OATranscriptionDefaultReq) :
    GoOutcome OATranscriptionWordTimestampResp × List (HttpClient × HttpRequest) :=
  match sttBaseReq true true false req_body c.apiKey world with
  | (.error m, tr) => (.err m, tr)
  | (.ok bs, tr) =>
    match unmarshal bs with
    | none => (.err "failed to unmarshal response", tr)
    | some result =>
      if result.error.message ≠ "" then (.err result.error.message, tr)
      else (.ok result, tr)

/-- `OpenAISpeechToTextSegmentTimestamps` (openai.stt.go lines 236-257). -/
def OpenAISpeechToTextSegmentTimestamps (c : OpenaiAPI) (world : World (Except String Bytes))
    (unmarshal : Bytes → Option OATranscriptionSegmentResp)
    (req_body : OATranscriptionDefaultReq) :
    GoOutcome OATranscriptionSegmentResp × List (HttpClient × HttpRequest) :=
  match sttBaseReq true false true req_body c.apiKey world with
  | (.error m, tr) => (.err m, tr)
  | (.ok bs, tr) =>
    match unmarshal bs with
    | none => (.err "failed to unmarshal response", tr)
    | some result =>
      if result.error.message ≠ "" then (.err result.error.message, tr)
      else (.ok result, tr)

/-- `OpenAISpeechToTextTranslation` (openai.stt.go lines 281-308): repack
the translation request (dropping `Language`) and run the translation
endpoint with both timestamp flags off. -/
def OpenAISpeechToTextTranslation (c : OpenaiAPI) (world : World (Except String Bytes))
    (unmarshal : Bytes → Option OATranscriptionDefaultResp)
    (req_body : OATranslationDefaultReq) :
    GoOutcome OATranscriptionDefaultResp × List (HttpClient × HttpRequest) :=
  let req : OATranscriptionDefaultReq :=
    { file := req_body.file, filename := req_body.filename,
      temperature := req_body.temperature, prompt := req_body.prompt }
  match sttBaseReq false false false req c.apiKey world with
  | (.error m, tr) => (.err m, tr)
  | (.ok bs, tr) =>
    match unmarshal bs with
    | none => (.err "failed to unmarshal response", tr)
    | some result =>
      if result.error.message ≠ "" then (.err result.error.message, tr)
      else (.ok result, tr)

-- ---------------------------------------------------------------------
-- Concrete fixtures used by counterexamples and witnesses
-- ---------------------------------------------------------------------

/-- A client with the default configuration and an empty API key. -/
def clientNoKey : OpenaiAPI :=
  { apiKey := "", openaiOrganization := "", openaiProject := "", config := DefaultConfig }

/-- A client with the default configuration and the API key `"sk-test"`. -/
def clientWithKey : OpenaiAPI :=
  { apiKey := "sk-test", openaiOrganization := "", openaiProject := "",
    config := DefaultConfig }

/-- An environment answering every chat-completion request with HTTP 200 and
a body that decodes to the zero-valued response (whose choices list is
empty). -/
def chatWorld200 : World (Except String OAChatCompletionResp) :=
  fun _ _ => .resp 200 "200 OK" (.ok {})

/-- An environment answering every byte-level request with HTTP 200 and an
empty body. -/
def bytesWorld200 : World (Except String Bytes) :=
  fun _ _ => .resp 200 "200 OK" (.ok [])

/-- A well-formed transcription request: an `io.Reader` file that reads
successfully, with a filename carrying an accepted extension. -/
def sttReqOk : OATranscriptionDefaultReq :=
  { file := some (.reader (.ok [1, 2, 3])), filename := "voice.mp3" }

/-- A decode oracle that accepts any bytes as the zero-valued default
transcription response. -/
def sttDecodeZero : Bytes → Option OATranscriptionDefaultResp := fun _ => some {}

-- ---------------------------------------------------------------------
-- Claim theorems
-- ---------------------------------------------------------------------

/-- C2 (code evaluation at the failing input): a text-to-speech request
whose `ResponseFormat` is `"xyz"` — non-empty and not one of mp3, opus,
aac, flac, wav, pcm — passes the input checker (the response-format test of
src/unnamed/part_001 line 27 is a conjunction of equalities and can never fire),
the network exchange is performed, and the call even succeeds, deriving the
file extension `".xyz"`.  The claimed `InvalidArgument` before any network
call does not happen. -/
theorem c2_code_evaluation :
    ttsValidationError { model := "tts-1", input := "hello", responseFormat := "xyz" } =
      none ∧
    (OpenAITextToSpeech clientWithKey bytesWorld200
        { model := "tts-1", input := "hello", responseFormat := "xyz" }).1 =
      .ok { formatAudio := ".xyz", b64JSON := "" } ∧
    (OpenAITextToSpeech clientWithKey bytesWorld200
        { model := "tts-1", input := "hello", responseFormat := "xyz" }).2.length = 1 :=
  ⟨rfl, rfl, rfl⟩

/-- C3 (code evaluation at the failing inputs): `OpenAISendMessage` called
with `with_custom_reqbody = true` and a nil `req_body_custom` dereferences
the nil pointer at src/unnamed/part_000 line 207 (a runtime panic, not a classified
error), and `OpenAIGetFirstContentDataResp` indexes `resp.Choices[0]` at
line 288 on a decoded response whose choices list is empty (an
index-out-of-range panic).  Neither input yields "exactly one of a typed
result or a classified error". -/
theorem c3_code_evaluation :
    OpenAISendMessage clientWithKey chatWorld200 none false none true none =
      (.panic "runtime error: invalid memory address or nil pointer dereference",
        none, []) ∧
    (OpenAIGetFirstContentDataResp clientWithKey chatWorld200
        (some [{ role := "user", content := .str "hi" }]) false none false none).1 =
      .panic "runtime error: index out of range [0] with length 0" :=
  ⟨rfl, rfl⟩

/-- C4 (code evaluation at the failing input): the voice whitelist of
src/unnamed/part_001 line 23 compares against the literal `"shimer"`, so the
documented voice `"shimmer"` is rejected with the voice error (before any
network call), while the undocumented string `"shimer"` passes validation
and reaches the network.  The claimed six-value set {alloy, echo, fable,
onyx, nova, shimmer} is not what the code accepts. -/
theorem c4_code_evaluation :
    ttsValidationError { model := "tts-1", input := "hello", voice := "shimmer" } =
      some "Voice must be alloy, echo, fable, onyx, nova, or shimmer" ∧
    OpenAITextToSpeech clientWithKey bytesWorld200
        { model := "tts-1", input := "hello", voice := "shimmer" } =
      (.err "Voice must be alloy, echo, fable, onyx, nova, or shimmer", []) ∧
    ttsValidationError { model := "tts-1", input := "hello", voice := "shimer" } = none ∧
    (OpenAITextToSpeech clientWithKey bytesWorld200
        { model := "tts-1", input := "hello", voice := "shimer" }).2.length = 1 :=
  ⟨rfl, rfl, rfl, rfl⟩

/-- Whenever the multipart body builds, `sttBaseReq` performs exactly one
exchange, on the freshly constructed zero-value client — whatever the API
key and whatever the environment answers. -/
theorem sttBaseReq_trace (isT isW isS : Bool) (req : OATranscriptionDefaultReq)
    (key : String) (world : World (Except String Bytes)) (body : MultipartBody)
    (h : sttBuildBody isW isS req = .ok body) :
    (sttBaseReq isT isW isS req key world).2 =
      [(freshHttpClient, sttHttpRequest isT key body)] := by
  unfold sttBaseReq
  rw [h]
  dsimp only
  rcases hw : world freshHttpClient (sttHttpRequest isT key body) with m | ⟨s, st, b⟩
  · simp [hw]
  · cases b <;> simp [hw]

/-- Each speech-to-text wrapper forwards the trace of `sttBaseReq`
unchanged. -/
theorem sttDefault_trace_eq (c : OpenaiAPI) (world : World (Except String Bytes))
    (um : Bytes → Option OATranscriptionDefaultResp) (req : OATranscriptionDefaultReq) :
    (OpenAISpeechToTextDefault c world um req).2 =
      (sttBaseReq true false false req c.apiKey world).2 := by
  unfold OpenAISpeechToTextDefault
  rcases hsb : sttBaseReq true false false req c.apiKey world with ⟨res, tr⟩
  cases res with
  | error m => rfl
  | ok bs =>
    rcases hum : um bs with _ | result
    · simp [hum]
    · by_cases hmsg : result.error.message = "" <;> simp [hum, hmsg]

/-- Trace forwarding for the word-timestamps wrapper. -/
theorem sttWord_trace_eq (c : OpenaiAPI) (world : World (Except String Bytes))
    (um : Bytes → Option OATranscriptionWordTimestampResp)
    (req : OATranscriptionDefaultReq) :
    (OpenAISpeechToTextWordTimestamps c world um req).2 =
      (sttBaseReq true true false req c.apiKey world).2 := by
  unfold OpenAISpeechToTextWordTimestamps
  rcases hsb : sttBaseReq true true false req c.apiKey world with ⟨res, tr⟩
  cases res with
  | error m => rfl
  | ok bs =>
    rcases hum : um bs with _ | result
    · simp [hum]
    · by_cases hmsg : result.error.message = "" <;> simp [hum, hmsg]

/-- Trace forwarding for the segment-timestamps wrapper. -/
theorem sttSegment_trace_eq (c : OpenaiAPI) (world : World (Except String Bytes))
    (um : Bytes → Option OATranscriptionSegmentResp)
    (req : OATranscriptionDefaultReq) :
    (OpenAISpeechToTextSegmentTimestamps c world um req).2 =
      (sttBaseReq true false true req c.apiKey world).2 := by
  unfold OpenAISpeechToTextSegmentTimestamps
  rcases hsb : sttBaseReq true false true req c.apiKey world with ⟨res, tr⟩
  cases res with
  | error m => rfl
  | ok bs =>
    rcases hum : um bs with _ | result
    · simp [hum]
    · by_cases hmsg : result.error.message = "" <;> simp [hum, hmsg]

/-- Trace forwarding for the translation wrapper (which repacks its request
without the `Language` field). -/
theorem sttTranslation_trace_eq (c : OpenaiAPI) (world : World (Except String Bytes))
    (um : Bytes → Option OATranscriptionDefaultResp) (req : OATranslationDefaultReq) :
    (OpenAISpeechToTextTranslation c world um req).2 =
      (sttBaseReq false false false
        { file := req.file, filename := req.filename,
          temperature := req.temperature, prompt := req.prompt } c.apiKey world).2 := by
  unfold OpenAISpeechToTextTranslation
  dsimp only
  rcases hsb : sttBaseReq false false false
      { file := req.file, filename := req.filename,
        temperature := req.temperature, prompt := req.prompt } c.apiKey world with ⟨res, tr⟩
  cases res with
  | error m => rfl
  | ok bs =>
    rcases hum : um bs with _ | result
    · simp [hum]
    · by_cases hmsg : result.error.message = "" <;> simp [hum, hmsg]

/-- C1 (counterexample): the default speech-to-text operation, invoked on a
client whose API key is the empty string with a well-formed request,
performs the HTTP exchange (one `client.Do` invocation, bearer header
`"Bearer "`) and even returns a typed result — refuting "fails with
AuthError and no network call is attempted" for this operation.
`sttBaseReq` contains no API-key check. -/
theorem c1_counterexample :
    clientNoKey.apiKey = "" ∧
    (OpenAISpeechToTextDefault clientNoKey bytesWorld200 sttDecodeZero sttReqOk).2.length = 1 ∧
    (OpenAISpeechToTextDefault clientNoKey bytesWorld200 sttDecodeZero sttReqOk).1 =
      .ok {} :=
  ⟨rfl, rfl, rfl⟩

/-- C1 (amended): with an empty API key, chat completion and the
first-content projection fail immediately with the AuthError message and an
empty trace; image generation and text-to-speech never reach the network
and fail with the AuthError message exactly when their input validation
passes (otherwise with that validation error, still before any exchange);
but the four speech-to-text/translation operations perform no API-key
check: whenever their multipart body builds, they attempt the network
exchange even with an empty key. -/
theorem c1_auth_behaviour :
    (∀ (c : OpenaiAPI) world content wfr fr wcr rbc, c.apiKey = "" →
      OpenAISendMessage c world content wfr fr wcr rbc =
        (.err "API Key is empty", rbc, [])) ∧
    (∀ (c : OpenaiAPI) world content wfr fr wcr rbc, c.apiKey = "" →
      OpenAIGetFirstContentDataResp c world content wfr fr wcr rbc =
        (.err "API Key is empty", rbc, [])) ∧
    (∀ (c : OpenaiAPI) world r, c.apiKey = "" →
      (OpenAICreateImageDallE c world r).2 = [] ∧
      (∃ m, (OpenAICreateImageDallE c world r).1 = .err m) ∧
      (dalleValidationError r = none →
        OpenAICreateImageDallE c world r = (.err "API Key is empty", []))) ∧
    (∀ (c : OpenaiAPI) world r, c.apiKey = "" →
      (OpenAITextToSpeech c world r).2 = [] ∧
      (∃ m, (OpenAITextToSpeech c world r).1 = .err m) ∧
      (ttsValidationError r = none →
        OpenAITextToSpeech c world r = (.err "API Key is empty", []))) ∧
    (∀ (c : OpenaiAPI) world um req body, c.apiKey = "" →
      sttBuildBody false false req = .ok body →
      (OpenAISpeechToTextDefault c world um req).2 =
        [(freshHttpClient, sttHttpRequest true "" body)]) ∧
    (∀ (c : OpenaiAPI) world um req body, c.apiKey = "" →
      sttBuildBody true false req = .ok body →
      (OpenAISpeechToTextWordTimestamps c world um req).2 =
        [(freshHttpClient, sttHttpRequest true "" body)]) ∧
    (∀ (c : OpenaiAPI) world um req body, c.apiKey = "" →
      sttBuildBody false true req = .ok body →
      (OpenAISpeechToTextSegmentTimestamps c world um req).2 =
        [(freshHttpClient, sttHttpRequest true "" body)]) ∧
    (∀ (c : OpenaiAPI) world um req body, c.apiKey = "" →
      sttBuildBody false false
        { file := req.file, filename := req.filename,
          temperature := req.temperature, prompt := req.prompt } = .ok body →
      (OpenAISpeechToTextTranslation c world um req).2 =
        [(freshHttpClient, sttHttpRequest false "" body)]) := by
  refine ⟨?_, ?_, ?_, ?_, ?_, ?_, ?_, ?_⟩
  · intro c world content wfr fr wcr rbc h
    simp [OpenAISendMessage, h]
  · intro c world content wfr fr wcr rbc h
    simp [OpenAIGetFirstContentDataResp, OpenAISendMessage, h]
  · intro c world r h
    unfold OpenAICreateImageDallE
    rcases hv : dalleValidationError r with _ | m
    · simp [h]
    · simp
  · intro c world r h
    unfold OpenAITextToSpeech
    rcases hv : ttsValidationError r with _ | m
    · simp [h]
    · simp
  · intro c world um req body h hb
    rw [sttDefault_trace_eq, h, sttBaseReq_trace true false false req "" world body hb]
  · intro c world um req body h hb
    rw [sttWord_trace_eq, h, sttBaseReq_trace true true false req "" world body hb]
  · intro c world um req body h hb
    rw [sttSegment_trace_eq, h, sttBaseReq_trace true false true req "" world body hb]
  · intro c world um req body h hb
    rw [sttTranslation_trace_eq, h, sttBaseReq_trace false false false _ "" world body hb]

/-- C1 (witness): the amended theorem instantiated at a concrete client
with empty key. -/
theorem c1_witness :
    OpenAISendMessage clientNoKey chatWorld200 none false none false none =
      (.err "API Key is empty", none, []) :=
  c1_auth_behaviour.1 clientNoKey chatWorld200 none false none false none rfl

/-- `chatNetworkPhase` always performs exactly one exchange, on the
configured client. -/
theorem chatNetworkPhase_trace (c : OpenaiAPI)
    (world : World (Except String OAChatCompletionResp)) (bj : Json) :
    (chatNetworkPhase c world bj).2 = [(c.config.httpClient, chatHttpRequest c bj)] := by
  unfold chatNetworkPhase
  dsimp only
  rcases hw : world c.config.httpClient (chatHttpRequest c bj) with m | ⟨s, st, b⟩
  · simp [hw]
  · by_cases hs : s = 200
    · cases b <;> simp [hw, hs]
    · simp [hw, hs]

/-- Every exchange of `OpenAISendMessage` runs on the configured client. -/
theorem sendMessage_client (c : OpenaiAPI) (world : World (Except String OAChatCompletionResp))
    (content : Option (List OAMessageReq)) (wfr : Bool)
    (fr : Option (List (String × Json))) (wcr : Bool)
    (rbc : Option OAReqBodyMessageCompletion) (e : HttpClient × HttpRequest)
    (he : e ∈ (OpenAISendMessage c world content wfr fr wcr rbc).2.2) :
    e.1 = c.config.httpClient := by
  unfold OpenAISendMessage at he
  split at he
  · simp at he
  · split at he
    · simp at he
    · split at he
      · simp at he
      · split at he
        · simp at he
        · dsimp only at he
          rw [chatNetworkPhase_trace] at he
          simp at he
          rw [he]
      · split at he
        · simp at he
        · dsimp only at he
          rw [chatNetworkPhase_trace] at he
          simp at he
          rw [he]

/-- The first-content projection forwards the trace of `OpenAISendMessage`
unchanged. -/
theorem firstContent_trace_eq (c : OpenaiAPI)
    (world : World (Except String OAChatCompletionResp))
    (content : Option (List OAMessageReq)) (wfr : Bool)
    (fr : Option (List (String × Json))) (wcr : Bool)
    (rbc : Option OAReqBodyMessageCompletion) :
    (OpenAIGetFirstContentDataResp c world content wfr fr wcr rbc).2.2 =
      (OpenAISendMessage c world content wfr fr wcr rbc).2.2 := by
  unfold OpenAIGetFirstContentDataResp
  rcases h : OpenAISendMessage c world content wfr fr wcr rbc with ⟨out, rb, tr⟩
  cases out with
  | ok resp => cases hc : resp.choices <;> simp [hc]
  | err m => simp
  | panic m => simp

/-- Every exchange of `OpenAICreateImageDallE` runs on the configured
client. -/
theorem imageDalle_client (c : OpenaiAPI)
    (world : World (Except String OAImageGeneratorDallEResp))
    (r : OAReqImageGeneratorDallE) (e : HttpClient × HttpRequest)
    (he : e ∈ (OpenAICreateImageDallE c world r).2) :
    e.1 = c.config.httpClient := by
  unfold OpenAICreateImageDallE at he
  split at he
  · simp at he
  · split at he
    · simp at he
    · dsimp only at he
      split at he
      · simp at he; rw [he]
      · split at he
        · simp at he; rw [he]
        · split at he
          · simp at he; rw [he]
          · simp at he; rw [he]

/-- Every exchange of `OpenAITextToSpeech` runs on the configured client. -/
theorem tts_client (c : OpenaiAPI) (world : World (Except String Bytes))
    (r : OAReqTextToSpeech) (e : HttpClient × HttpRequest)
    (he : e ∈ (OpenAITextToSpeech c world r).2) :
    e.1 = c.config.httpClient := by
  unfold OpenAITextToSpeech at he
  split at he
  · simp at he
  · split at he
    · simp at he
    · dsimp only at he
      split at he
      · simp at he; rw [he]
      · split at he
        · simp at he; rw [he]
        · split at he
          · simp at he; rw [he]
          · simp at he; rw [he]

/-- Every exchange of `sttBaseReq` runs on the freshly constructed
zero-value client. -/
theorem sttBaseReq_client (isT isW isS : Bool) (req : OATranscriptionDefaultReq)
    (key : String) (world : World (Except String Bytes)) (e : HttpClient × HttpRequest)
    (he : e ∈ (sttBaseReq isT isW isS req key world).2) :
    e.1 = freshHttpClient := by
  unfold sttBaseReq at he
  split at he
  · simp at he
  · dsimp only at he
    split at he
    · simp at he; rw [he]
    · split at he
      · simp at he; rw [he]
      · simp at he; rw [he]

/-- C6 (counterexample): a speech-to-text call performs its exchange on the
freshly constructed zero-value client, which differs from the client held
in the configuration (the default 60-second-timeout client) — refuting "no
operation constructs and uses a different, unconfigured HTTP client". -/
theorem c6_counterexample :
    (OpenAISpeechToTextDefault clientWithKey bytesWorld200 sttDecodeZero sttReqOk).2.map
        Prod.fst = [freshHttpClient] ∧
    freshHttpClient ≠ clientWithKey.config.httpClient :=
  ⟨rfl, by decide⟩

/-- C6 (amended): chat completion, the first-content projection, image
generation and text-to-speech perform every exchange through the HTTP
client held in the client's configuration; the four
speech-to-text/translation operations instead perform every exchange
through a freshly constructed zero-value `http.Client` (which is not the
configured default client). -/
theorem c6_client_usage :
    (∀ (c : OpenaiAPI) world content wfr fr wcr rbc e,
      e ∈ (OpenAISendMessage c world content wfr fr wcr rbc).2.2 →
        e.1 = c.config.httpClient) ∧
    (∀ (c : OpenaiAPI) world content wfr fr wcr rbc e,
      e ∈ (OpenAIGetFirstContentDataResp c world content wfr fr wcr rbc).2.2 →
        e.1 = c.config.httpClient) ∧
    (∀ (c : OpenaiAPI) world r e,
      e ∈ (OpenAICreateImageDallE c world r).2 → e.1 = c.config.httpClient) ∧
    (∀ (c : OpenaiAPI) world r e,
      e ∈ (OpenAITextToSpeech c world r).2 → e.1 = c.config.httpClient) ∧
    (∀ (c : OpenaiAPI) world um req e,
      e ∈ (OpenAISpeechToTextDefault c world um req).2 → e.1 = freshHttpClient) ∧
    (∀ (c : OpenaiAPI) world um req e,
      e ∈ (OpenAISpeechToTextWordTimestamps c world um req).2 → e.1 = freshHttpClient) ∧
    (∀ (c : OpenaiAPI) world um req e,
      e ∈ (OpenAISpeechToTextSegmentTimestamps c world um req).2 → e.1 = freshHttpClient) ∧
    (∀ (c : OpenaiAPI) world um req e,
      e ∈ (OpenAISpeechToTextTranslation c world um req).2 → e.1 = freshHttpClient) ∧
    freshHttpClient ≠ DefaultConfig.httpClient := by
  refine ⟨sendMessage_client, ?_, imageDalle_client, tts_client, ?_, ?_, ?_, ?_, by decide⟩
  · intro c world content wfr fr wcr rbc e he
    rw [firstContent_trace_eq] at he
    exact sendMessage_client c world content wfr fr wcr rbc e he
  · intro c world um req e he
    rw [sttDefault_trace_eq] at he
    exact sttBaseReq_client true false false req c.apiKey world e he
  · intro c world um req e he
    rw [sttWord_trace_eq] at he
    exact sttBaseReq_client true true false req c.apiKey world e he
  · intro c world um req e he
    rw [sttSegment_trace_eq] at he
    exact sttBaseReq_client true false true req c.apiKey world e he
  · intro c world um req e he
    rw [sttTranslation_trace_eq] at he
    exact sttBaseReq_client false false false _ c.apiKey world e he

/-- C6 (witness): the amended theorem instantiated at a concrete
speech-to-text call whose one trace entry is the fresh client. -/
theorem c6_witness :
    (freshHttpClient,
      sttHttpRequest true "sk-test"
        ⟨"voice.mp3", [1, 2, 3], [("model", .str "whisper-1")]⟩).1 = freshHttpClient :=
  c6_client_usage.2.2.2.2.1 clientWithKey bytesWorld200 sttDecodeZero sttReqOk _
    (List.Mem.head _)

/-- C5: for each of the four speech-to-text/translation operations, when
the exchange succeeds (even with HTTP status 200) and the decoded response
carries an error sub-object with a non-empty message, the operation returns
exactly that message as its error and no typed result. -/
theorem c5_inband_provider_error :
    (∀ (c : OpenaiAPI) world um req body st bs
        (result : OATranscriptionDefaultResp),
      sttBuildBody false false req = .ok body →
      world freshHttpClient (sttHttpRequest true c.apiKey body) = .resp 200 st (.ok bs) →
      um bs = some result → result.error.message ≠ "" →
      (OpenAISpeechToTextDefault c world um req).1 = .err result.error.message) ∧
    (∀ (c : OpenaiAPI) world um req body st bs
        (result : OATranscriptionWordTimestampResp),
      sttBuildBody true false req = .ok body →
      world freshHttpClient (sttHttpRequest true c.apiKey body) = .resp 200 st (.ok bs) →
      um bs = some result → result.error.message ≠ "" →
      (OpenAISpeechToTextWordTimestamps c world um req).1 = .err result.error.message) ∧
    (∀ (c : OpenaiAPI) world um req body st bs
        (result : OATranscriptionSegmentResp),
      sttBuildBody false true req = .ok body →
      world freshHttpClient (sttHttpRequest true c.apiKey body) = .resp 200 st (.ok bs) →
      um bs = some result → result.error.message ≠ "" →
      (OpenAISpeechToTextSegmentTimestamps c world um req).1 = .err result.error.message) ∧
    (∀ (c : OpenaiAPI) world um req body st bs
        (result : OATranscriptionDefaultResp),
      sttBuildBody false false
        { file := req.file, filename := req.filename,
          temperature := req.temperature, prompt := req.prompt } = .ok body →
      world freshHttpClient (sttHttpRequest false c.apiKey body) = .resp 200 st (.ok bs) →
      um bs = some result → result.error.message ≠ "" →
      (OpenAISpeechToTextTranslation c world um req).1 = .err result.error.message) := by
  refine ⟨?_, ?_, ?_, ?_⟩
  · intro c world um req body st bs result hb hw hum hmsg
    have hbase : sttBaseReq true false false req c.apiKey world =
        (.ok bs, [(freshHttpClient, sttHttpRequest true c.apiKey body)]) := by
      unfold sttBaseReq
      rw [hb]
      dsimp only
      rw [hw]
    simp [OpenAISpeechToTextDefault, hbase, hum, hmsg]
  · intro c world um req body st bs result hb hw hum hmsg
    have hbase : sttBaseReq true true false req c.apiKey world =
        (.ok bs, [(freshHttpClient, sttHttpRequest true c.apiKey body)]) := by
      unfold sttBaseReq
      rw [hb]
      dsimp only
      rw [hw]
    simp [OpenAISpeechToTextWordTimestamps, hbase, hum, hmsg]
  · intro c world um req body st bs result hb hw hum hmsg
    have hbase : sttBaseReq true false true req c.apiKey world =
        (.ok bs, [(freshHttpClient, sttHttpRequest true c.apiKey body)]) := by
      unfold sttBaseReq
      rw [hb]
      dsimp only
      rw [hw]
    simp [OpenAISpeechToTextSegmentTimestamps, hbase, hum, hmsg]
  · intro c world um req body st bs result hb hw hum hmsg
    have hbase : sttBaseReq false false false
        { file := req.file, filename := req.filename,
          temperature := req.temperature, prompt := req.prompt } c.apiKey world =
        (.ok bs, [(freshHttpClient, sttHttpRequest false c.apiKey body)]) := by
      unfold sttBaseReq
      rw [hb]
      dsimp only
      rw [hw]
    simp [OpenAISpeechToTextTranslation, hbase, hum, hmsg]

/-- C5 (witness): a concrete 200-status exchange whose decoded body carries
the in-band error message `"boom"` makes the default transcription fail
with exactly that message. -/
theorem c5_witness :
    (OpenAISpeechToTextDefault clientWithKey bytesWorld200
        (fun _ => some { error := { message := "boom" } }) sttReqOk).1 = .err "boom" :=
  c5_inband_provider_error.1 clientWithKey bytesWorld200
    (fun _ => some { error := { message := "boom" } }) sttReqOk
    ⟨"voice.mp3", [1, 2, 3], [("model", FieldVal.str "whisper-1")]⟩ "200 OK" []
    { error := { message := "boom" } } rfl rfl rfl (by decide)

/-- C7: on the content-plus-flags path (`with_custom_reqbody = false`,
`with_format_response = true`) with the envelope produced by
`OACreateResponseFormat`, the one request put on the wire carries a JSON
body whose `response_format` field is exactly that envelope, embedded
verbatim. -/
theorem c7_response_format_roundtrip :
    ∀ (c : OpenaiAPI) (world : World (Except String OAChatCompletionResp))
      (msgs : List OAMessageReq) (sname : String) (schema : List (String × Json)),
      c.apiKey ≠ "" →
      ∃ bodyJson,
        (OpenAISendMessage c world (some msgs) true
            (some (OACreateResponseFormat sname schema)) false none).2.2 =
          [(c.config.httpClient, chatHttpRequest c bodyJson)] ∧
        bodyJson.field "response_format" =
          some (.obj (OACreateResponseFormat sname schema)) := by
  intro c world msgs sname schema hk
  refine ⟨({ messages := some msgs, model := c.config.openAIModel,
             responseFormat := some (OACreateResponseFormat sname schema) } :
               OAReqBodyMessageCompletion).marshal, ?_, rfl⟩
  unfold OpenAISendMessage
  simp [hk]
  rw [chatNetworkPhase_trace]

/-- C7 (witness): the round-trip at a concrete schema envelope. -/
theorem c7_witness :
    ∃ bodyJson,
      (OpenAISendMessage clientWithKey chatWorld200
          (some [⟨"user", .str "hi"⟩]) true
          (some (OACreateResponseFormat "Out" [("type", Json.str "object")]))
          false none).2.2 =
        [(clientWithKey.config.httpClient, chatHttpRequest clientWithKey bodyJson)] ∧
      bodyJson.field "response_format" =
        some (.obj (OACreateResponseFormat "Out" [("type", Json.str "object")])) :=
  c7_response_format_roundtrip clientWithKey chatWorld200 [⟨"user", .str "hi"⟩]
    "Out" [("type", Json.str "object")] (by decide)

/-- C8: image-generation quality/style validation.  With `dall-e-2` (and an
in-range or absent `N`), a non-nil quality or style fails validation with
the corresponding only-for-dall-e-3 error, no exchange happens and the
operation returns an error.  With `dall-e-3`, quality `standard`/`hd` and
style `vivid`/`natural` (and valid `N`/response format) pass validation;
any other non-nil quality or style value fails with the corresponding
enumeration error. -/
theorem c8_dalle_quality_style :
    (∀ (c : OpenaiAPI) world (r : OAReqImageGeneratorDallE), r.model = "dall-e-2" →
      (r.n = none ∨ ∃ v, r.n = some v ∧ 1 ≤ v ∧ v ≤ 10) →
      r.quality.isSome ∨ r.style.isSome →
      (dalleValidationError r = some "Quality is only supported for dall-e-3 model" ∨
       dalleValidationError r = some "Style is only supported for dall-e-3 model") ∧
      (OpenAICreateImageDallE c world r).2 = [] ∧
      (∃ m, (OpenAICreateImageDallE c world r).1 = .err m)) ∧
    (∀ r : OAReqImageGeneratorDallE, r.model = "dall-e-3" →
      (r.n = none ∨ ∃ v, r.n = some v ∧ 1 ≤ v ∧ v ≤ 10) →
      (r.quality = none ∨ r.quality = some "standard" ∨ r.quality = some "hd") →
      (r.style = none ∨ r.style = some "vivid" ∨ r.style = some "natural") →
      (r.responseFormat = none ∨ r.responseFormat = some "url" ∨
        r.responseFormat = some "b64_json") →
      dalleValidationError r = none) ∧
    (∀ (r : OAReqImageGeneratorDallE) q, r.model = "dall-e-3" →
      (r.n = none ∨ ∃ v, r.n = some v ∧ 1 ≤ v ∧ v ≤ 10) →
      r.quality = some q → q ≠ "standard" → q ≠ "hd" →
      dalleValidationError r = some "Quality must be standard or hd") ∧
    (∀ (r : OAReqImageGeneratorDallE) sv, r.model = "dall-e-3" →
      (r.n = none ∨ ∃ v, r.n = some v ∧ 1 ≤ v ∧ v ≤ 10) →
      (r.quality = none ∨ r.quality = some "standard" ∨ r.quality = some "hd") →
      r.style = some sv → sv ≠ "vivid" → sv ≠ "natural" →
      dalleValidationError r = some "Style must be vivid or natural") := by
  have hnb : ∀ r : OAReqImageGeneratorDallE,
      (r.n = none ∨ ∃ v, r.n = some v ∧ 1 ≤ v ∧ v ≤ 10) →
      r.n.any (fun v => decide (v < 1) || decide (v > 10)) = false := by
    intro r hn
    rcases hn with h | ⟨v, hv, h1, h2⟩
    · simp [h]
    · simp [hv]
      omega
  refine ⟨?_, ?_, ?_, ?_⟩
  · intro c world r hm hn hqs
    have hval : dalleValidationError r =
        some "Quality is only supported for dall-e-3 model" ∨
        dalleValidationError r = some "Style is only supported for dall-e-3 model" := by
      unfold dalleValidationError
      rw [hm]
      rcases hq2 : r.quality with _ | q
      · rcases hqs with hq | hs
        · rw [hq2] at hq
          simp at hq
        · right
          rcases Option.isSome_iff_exists.mp hs with ⟨sv, hsv⟩
          simp [hq2, hsv, hnb r hn]
      · left
        simp [hq2, hnb r hn]
    refine ⟨hval, ?_, ?_⟩
    · rcases hval with h | h <;> simp [OpenAICreateImageDallE, h]
    · rcases hval with h | h
      · exact ⟨"Quality is only supported for dall-e-3 model",
          by simp [OpenAICreateImageDallE, h]⟩
      · exact ⟨"Style is only supported for dall-e-3 model",
          by simp [OpenAICreateImageDallE, h]⟩
  · intro r hm hn hq hs hrf
    unfold dalleValidationError
    rw [hm]
    rcases hq with hq | hq | hq <;> rcases hs with hs | hs | hs <;>
      rcases hrf with hrf | hrf | hrf <;> simp [hq, hs, hrf, hnb r hn]
  · intro r q hm hn hq hq1 hq2
    unfold dalleValidationError
    rw [hm]
    simp [hq, hq1, hq2, hnb r hn]
  · intro r sv hm hn hq hs hs1 hs2
    unfold dalleValidationError
    rw [hm]
    rcases hq with hq | hq | hq <;> simp [hq, hs, hs1, hs2, hnb r hn]

/-- C8 (witness): `dall-e-3` with quality `hd` and style `vivid` passes
validation. -/
theorem c8_witness :
    dalleValidationError
      { prompt := "p", model := "dall-e-3", n := some 5, quality := some "hd",
        style := some "vivid", responseFormat := some "url" } = none :=
  c8_dalle_quality_style.2.1
    { prompt := "p", model := "dall-e-3", n := some 5, quality := some "hd",
      style := some "vivid", responseFormat := some "url" }
    rfl (Or.inr ⟨5, rfl, by decide, by decide⟩) (Or.inr (Or.inr rfl))
    (Or.inr (Or.inl rfl)) (Or.inr (Or.inl rfl))

/-- C9: on any transcription request with a valid (resolvable) file input,
an accepted file extension and an in-range temperature, requesting both
word and segment timestamps fails with the mutual-exclusion error: no
multipart body is produced and no network exchange is attempted. -/
theorem c9_both_timestamp_flags :
    ∀ (req : OATranscriptionDefaultReq) (f : GoFile) (fn : String)
      (content : Except String Bytes),
      req.file = some f →
      sttResolveFile f req.filename = .ok (fn, content) →
      validExts.contains (filepathExt fn) = true →
      ¬(req.temperature ≠ 0 ∧ (req.temperature < 0 ∨ req.temperature > 1)) →
      sttBuildBody true true req =
        .error "cannot use both word timestamps and segment timestamps" ∧
      ∀ (isTrans : Bool) (key : String) (world : World (Except String Bytes)),
        sttBaseReq isTrans true true req key world =
          (.error "cannot use both word timestamps and segment timestamps", []) := by
  intro req f fn content hf hres hok htmp
  have hboth : sttBuildBody true true req =
      .error "cannot use both word timestamps and segment timestamps" := by
    unfold sttBuildBody
    rw [hf]
    dsimp only
    rw [if_neg htmp, hres]
    dsimp only
    rw [if_neg (not_not_intro hok)]
    simp
  refine ⟨hboth, ?_⟩
  intro isTrans key world
  unfold sttBaseReq
  rw [hboth]

/-- C9 (witness): the mutual-exclusion failure at a concrete valid
request. -/
theorem c9_witness :
    sttBuildBody true true sttReqOk =
      .error "cannot use both word timestamps and segment timestamps" ∧
    sttBaseReq true true true sttReqOk "sk-test" bytesWorld200 =
      (.error "cannot use both word timestamps and segment timestamps", []) :=
  have h := c9_both_timestamp_flags sttReqOk (.reader (.ok [1, 2, 3])) "voice.mp3"
    (.ok [1, 2, 3]) rfl rfl rfl (fun hc => hc.1 rfl)
  ⟨h.1, h.2 true "sk-test" bytesWorld200⟩

/-- C10: when `OpenAISendMessage` takes the custom-body path with a format
envelope (`with_custom_reqbody = true`, `with_format_response = true`) and
its early checks pass, the caller's struct is mutated in place: after the
call — whatever the environment did, so on success and on every later
failure path — the pointee's `ResponseFormat` field equals the supplied
envelope while every other field is unchanged, and the serialized wire body
is exactly the marshalling of that updated struct. -/
theorem c10_custom_body_mutation :
    ∀ (c : OpenaiAPI) (world : World (Except String OAChatCompletionResp))
      (content : Option (List OAMessageReq)) (fr : List (String × Json))
      (rb : OAReqBodyMessageCompletion),
      c.apiKey ≠ "" → rb.messages ≠ none →
      (OpenAISendMessage c world content true (some fr) true (some rb)).2.1 =
        some { rb with responseFormat := some fr } ∧
      (OpenAISendMessage c world content true (some fr) true (some rb)).2.2 =
        [(c.config.httpClient,
          chatHttpRequest c ({ rb with responseFormat := some fr } :
            OAReqBodyMessageCompletion).marshal)] := by
  intro c world content fr rb hk hm
  have hmn : rb.messages.isNone = false := by
    rcases h : rb.messages with _ | v
    · exact absurd h hm
    · rfl
  unfold OpenAISendMessage
  constructor
  · simp [hk, hmn]
  · simp [hk, hmn]
    rw [chatNetworkPhase_trace]

/-- C10 (witness): the mutation at a concrete custom body and envelope. -/
theorem c10_witness :
    (OpenAISendMessage clientWithKey chatWorld200 none true
        (some [("type", Json.str "text")]) true
        (some { messages := some [⟨"user", .str "q"⟩], model := "m" })).2.1 =
      some { messages := some [⟨"user", Json.str "q"⟩], model := "m",
             responseFormat := some [("type", Json.str "text")] } :=
  (c10_custom_body_mutation clientWithKey chatWorld200 none
    [("type", Json.str "text")]
    { messages := some [⟨"user", .str "q"⟩], model := "m" }
    (by decide) (by simp)).1
